import Mathlib

set_option autoImplicit false

/-!
Verification of the CodeGame javascript-server session layer.

The TypeScript sources are shallowly embedded: JavaScript objects used as
string-keyed maps become association lists (insertion ordered, unique keys),
timestamps (`Date.now()`) become explicit `Int` parameters, the abstract
subclass factories (`createPlayer`, `createGameFn`) become function
parameters, and the event-driven heartbeat protocol becomes a step relation
on an explicit connection state.  Logging to stdout is ignored; messages
delivered to debug observers are tracked where a claim depends on them.
-/

namespace CG

/-- JS property lookup `m[k]` on an object used as a map (first binding wins;
keys are kept unique by `jsSet`). `none` models `undefined`. -/
def jsLookup {α : Type} (m : List (String × α)) (k : String) : Option α :=
  match m with
  | [] => none
  | (k', v) :: rest => if k' = k then some v else jsLookup rest k

/-- JS property assignment `m[k] = v`: overwrite in place if the key exists,
otherwise append (JS objects preserve insertion order). -/
def jsSet {α : Type} (m : List (String × α)) (k : String) (v : α) : List (String × α) :=
  match m with
  | [] => [(k, v)]
  | (k', v') :: rest => if k' = k then (k, v) :: rest else (k', v') :: jsSet rest k v

/-- JS `delete m[k]`. -/
def jsDel {α : Type} (m : List (String × α)) (k : String) : List (String × α) :=
  match m with
  | [] => []
  | (k', v') :: rest => if k' = k then jsDel rest k else (k', v') :: jsDel rest k

/-- Key set of a JS object whose values are irrelevant to the claims
(used for `Player.gameSockets`, which maps socket ids to socket objects).
`m[k] = v` on the key set: no change when present, else append. -/
def jsInsertKey (l : List String) (k : String) : List String :=
  if k ∈ l then l else l ++ [k]

/-- `delete m[k]` on the key set. -/
def jsEraseKey (l : List String) (k : String) : List String :=
  l.filter (fun x => decide (x ≠ k))

/-! ## Player (src/src/player.ts) -/

/-- State of `Player` (src/src/player.ts).  `gameSockets` holds the keys of
the `gameSockets` map (socket ids); `inactiveSince` is the unix timestamp of
the time that the last socket disconnected from the player (0 initially).
The `debugSockets` map and the logger are not needed by the claims. -/
structure Player where
  id : String
  username : String
  secret : String
  gameSockets : List String
  inactiveSince : Int
  deriving DecidableEq

/-- `new Player(username)`: fresh player with no sockets and `inactiveSince = 0`.
The uuid `id` and the `randomSecret()` secret are supplied as oracles. -/
def Player.mk0 (id username secret : String) : Player :=
  { id := id, username := username, secret := secret, gameSockets := [], inactiveSince := 0 }

/-- `Player.addGameSocket` (src/src/player.ts lines 62-65):
`this.gameSockets[gameSocket.id] = gameSocket` plus an info log.
Note that the source does NOT touch `inactiveSince`. -/
def Player.addGameSocket (p : Player) (socketId : String) : Player :=
  { p with gameSockets := jsInsertKey p.gameSockets socketId }

/-- `Player.removeGameSocket` (src/src/player.ts lines 71-75):
`delete this.gameSockets[socket.id]`; if the map is then empty,
`this.inactiveSince = Date.now()` (`now` models `Date.now()`). -/
def Player.removeGameSocket (p : Player) (socketId : String) (now : Int) : Player :=
  let gs := jsEraseKey p.gameSockets socketId
  { p with gameSockets := gs,
           inactiveSince := if gs.length = 0 then now else p.inactiveSince }

/-- `Player.active` (src/src/player.ts lines 97-99):
`Object.keys(this.gameSockets).length !== 0`. -/
def Player.active (p : Player) : Bool :=
  decide (p.gameSockets.length ≠ 0)

/-- `Player.verifySecret` (src/src/player.ts lines 39-42): `this.secret === secret`
(the warn log is ignored). -/
def Player.verifySecret (p : Player) (secret : String) : Bool :=
  decide (p.secret = secret)

/-- One call against a player's game-socket map: `addGameSocket` or
`removeGameSocket` (the latter carrying the value of `Date.now()` at call time). -/
inductive PlayerOp where
  | add (socketId : String)
  | remove (socketId : String) (now : Int)
  deriving DecidableEq

def PlayerOp.isAdd : PlayerOp → Bool
  | .add _ => true
  | .remove _ _ => false

def Player.step (p : Player) (op : PlayerOp) : Player :=
  match op with
  | .add sid => p.addGameSocket sid
  | .remove sid now => p.removeGameSocket sid now

/-- Runs a sequence of `addGameSocket`/`removeGameSocket` calls. -/
def Player.run (p : Player) (ops : List PlayerOp) : Player :=
  ops.foldl Player.step p

/-! ## Game (game.ts, src/unnamed/part_000, second class in the file) -/

/-- State of `Game`.  `isProtected` renders the source field `protected`
(a reserved word in Lean); `secret` is initialised by `randomSecret()`
UNCONDITIONALLY (part_000 line 129), whether or not the game is protected.
The spectator map, config object and logger are not needed by the claims. -/
structure Game where
  MAX_PLAYER_COUNT : Nat
  MAX_INACTIVE_TIME_MINUTES : Int
  id : String
  isProtected : Bool
  secret : String
  players : List (String × Player)
  joiningAllowed : Bool
  deriving DecidableEq

/-- `Game.getPlayerCount` (part_000 lines 280-282): `Object.keys(this.players).length`. -/
def Game.getPlayerCount (g : Game) : Nat :=
  g.players.length

/-- `Game.full` (part_000 lines 249-251): `!(this.getPlayerCount() < this.MAX_PLAYER_COUNT)`. -/
def Game.full (g : Game) : Bool :=
  !(decide (g.getPlayerCount < g.MAX_PLAYER_COUNT))

/-- `Game.getPlayer` (part_000 lines 293-295): `this.players[playerId]` —
`none` models the `undefined` a missing key yields (the TS signature claims
a plain `Player` is returned, which is what lets the caller crash). -/
def Game.getPlayer (g : Game) (playerId : String) : Option Player :=
  jsLookup g.players playerId

/-- `Game.verifySecret` (part_000 lines 197-199): `this.secret === secret`. -/
def Game.verifySecret (g : Game) (secret : String) : Bool :=
  decide (g.secret = secret)

/-- The per-player test made by `Game.active` (part_000 line 209):
`player.active() || player.inactiveSince > now - MAX_INACTIVE_TIME_MINUTES * 60 * 1000`. -/
def playerConsideredActive (p : Player) (now window : Int) : Bool :=
  p.active || decide (p.inactiveSince > now - window * 60 * 1000)

/-- `Game.active` (part_000 lines 205-213): scans every player and returns
whether any passes `playerConsideredActive`.  (The source additionally calls
`player.terminate()` on each stale player, a side effect on the underlying
websockets only; it does not change any field modelled here.) -/
def Game.active (g : Game) (now : Int) : Bool :=
  g.players.any (fun e => playerConsideredActive e.2 now g.MAX_INACTIVE_TIME_MINUTES)

/-- `Game.addPlayer` (part_000 lines 303-310): throws `"The game is full."`
when `full()`, otherwise builds a player via the abstract `createPlayer`
factory and registers it under its id.  The pair carries the resulting game
state next to the thrown/returned value (on throw, nothing was mutated). -/
def Game.addPlayer (createPlayer : String → Player) (g : Game) (username : String) :
    Game × Except String Player :=
  if g.full then (g, Except.error "The game is full.")
  else
    let newPlayer := createPlayer username
    ({ g with players := jsSet g.players newPlayer.id newPlayer }, Except.ok newPlayer)

/-! ## GameServer (src/src/server.ts) -/

/-- State of `GameServer`: the two game maps and the configured maximum. -/
structure GameServer where
  MAX_GAMES_COUNT : Nat
  publicGames : List (String × Game)
  privateGames : List (String × Game)
  deriving DecidableEq

/-- `GameServer.maxGamesCountReached` (src/src/server.ts lines 110-112),
embedded exactly as written:
`(Object.keys(this.publicGames).length + Object.keys(this.publicGames).length) === this.MAX_GAMES_COUNT`
— the source adds the size of `publicGames` to itself; `privateGames` is
never counted. -/
def GameServer.maxGamesCountReached (s : GameServer) : Bool :=
  decide (s.publicGames.length + s.publicGames.length = s.MAX_GAMES_COUNT)

/-- `GameServer.getGame` (src/src/server.ts lines 106-108):
`this.publicGames[gameId] || this.privateGames[gameId]`. -/
def GameServer.getGame (s : GameServer) (gameId : String) : Option Game :=
  (jsLookup s.publicGames gameId).orElse (fun _ => jsLookup s.privateGames gameId)

/-- `GameServer.deleteInactive` (src/src/server.ts lines 152-165), embedded
exactly as written: the loop runs over `Object.entries(this.publicGames)`
ONLY; for each game failing `active()` it calls `game.terminate()` (a socket
side effect, outside the modelled fields) and deletes the id from BOTH maps,
collecting the deleted ids.  `privateGames` entries are never visited. -/
def GameServer.deleteInactive (s : GameServer) (now : Int) : GameServer × List String :=
  s.publicGames.foldl
    (fun acc entry =>
      if Game.active entry.2 now then acc
      else ({ acc.1 with publicGames := jsDel acc.1.publicGames entry.1,
                         privateGames := jsDel acc.1.privateGames entry.1 },
            acc.2 ++ [entry.1]))
    (s, [])

/-- Result object of `createGame`.  The TS return type declares
`joinSecret?: string`, hence the `Option`; the source assigns it
unconditionally. -/
structure CreateGameResult where
  gameId : String
  joinSecret : Option String
  deriving DecidableEq

/-- `GameServer.createGame` (src/src/server.ts lines 130-149): first runs
`deleteInactive()`; throws the capacity message when `maxGamesCountReached()`;
otherwise builds the game via the abstract `createGameFn` factory (which
receives `_protected`), inserts it into the public or private map, and
returns `{ gameId: game.id, joinSecret: game.secret }` — the join secret is
returned for every game, protected or not. -/
def GameServer.createGame (s : GameServer) (createGameFn : Bool → Game)
    (_public _protected : Bool) (now : Int) :
    GameServer × Except String CreateGameResult :=
  let s1 := (s.deleteInactive now).1
  if s1.maxGamesCountReached then
    (s1, Except.error "The maximum number of games for this server has been reached.")
  else
    let game := createGameFn _protected
    if _public then
      ({ s1 with publicGames := jsSet s1.publicGames game.id game },
       Except.ok { gameId := game.id, joinSecret := some game.secret })
    else
      ({ s1 with privateGames := jsSet s1.privateGames game.id game },
       Except.ok { gameId := game.id, joinSecret := some game.secret })

/-! ## Upgrade handling (src/src/server.ts lines 178-220) -/

/-- The components `GameServer.deserializeURL` extracts from the request URL
(the regex itself is not modelled; a claim is settled at concrete component
values that the regex does produce). -/
structure URLParts where
  gameId : Option String
  route : Option String
  playerId : Option String
  playerRoute : Option String
  playerSecret : Option String
  deriving DecidableEq

/-- What the upgrade handler did with the underlying transport. -/
inductive UpgradeOutcome where
  /-- `socket.destroy()` was called and nothing was attached. -/
  | destroyed
  | attachedServerDebug
  | attachedSpectator (gameId : String)
  | attachedGameDebug (gameId : String)
  | attachedGameSocket (gameId playerId : String)
  | attachedPlayerDebug (gameId playerId : String)
  /-- No branch of the if/else chain matched: the handler returns with the
  upgraded websocket neither attached nor destroyed. -/
  | leftOpen
  /-- An exception escaped the upgrade callback uncaught. -/
  | crashed (message : String)
  deriving DecidableEq

/-- JS truthiness of an optional string (`undefined` and `""` are falsy). -/
def truthy (o : Option String) : Bool :=
  match o with
  | none => false
  | some s => !s.isEmpty

/-- The dispatch body of `GameServer.handleUpgrades` (src/src/server.ts
lines 178-220), as a function of the request URL and the components
`deserializeURL` produced for it.  In the `players` branch the source runs
`game.getPlayer(playerId).verifySecret(...)` without checking that the player
exists: an unknown player id makes `getPlayer` yield `undefined` and the
`verifySecret` access throws an uncaught `TypeError`. -/
def GameServer.handleUpgrade (s : GameServer) (url : Option String) (parts : URLParts) :
    UpgradeOutcome :=
  match url with
  | none => UpgradeOutcome.destroyed
  | some u =>
    if u = "/api/debug" then UpgradeOutcome.attachedServerDebug
    else
      match parts.gameId with
      | none => UpgradeOutcome.destroyed
      | some gid =>
        match s.getGame gid with
        | none => UpgradeOutcome.destroyed
        | some game =>
          if parts.route = some "spectate" then UpgradeOutcome.attachedSpectator gid
          else if parts.route = some "debug" then UpgradeOutcome.attachedGameDebug gid
          else
            match parts.playerId, parts.playerSecret with
            | some pid, some sec =>
              if parts.route = some "players" ∧ ¬pid.isEmpty ∧ ¬sec.isEmpty then
                match game.getPlayer pid with
                | none =>
                  UpgradeOutcome.crashed
                    "TypeError: cannot read properties of undefined (reading verifySecret)"
                | some player =>
                  if !(player.verifySecret sec) then UpgradeOutcome.destroyed
                  else if parts.playerRoute = some "connect" then
                    UpgradeOutcome.attachedGameSocket gid pid
                  else if parts.playerRoute = some "debug" then
                    UpgradeOutcome.attachedPlayerDebug gid pid
                  else UpgradeOutcome.leftOpen
              else UpgradeOutcome.leftOpen
            | _, _ => UpgradeOutcome.leftOpen

/-! ## Heartbeat-managed connection (src/src/socket.ts lines 159-192) -/

/-- Observable state of one `Socket` and its transport.  `disconnectCalls`
counts invocations of the abstract `onDisconnect()` owner notification
(`GameSocket.onDisconnect` forwards to `player.removeGameSocket(this)`). -/
structure SocketState where
  connectionAlive : Bool
  timerActive : Bool
  transportClosed : Bool
  closeFired : Bool
  disconnectCalls : Nat
  deriving DecidableEq

/-- Constructor state: `connectionAlive = true`, heartbeat timer installed. -/
def SocketState.initial : SocketState :=
  { connectionAlive := true, timerActive := true, transportClosed := false,
    closeFired := false, disconnectCalls := 0 }

/-- The suspension points of `startHeartbeat` (src/src/socket.ts lines 169-183):
a `pong` from the peer, a heartbeat timer `tick`, and the websocket `close`
event (which `ws` emits exactly once, in particular after `terminate()`). -/
inductive SocketEvent where
  | pong
  | tick
  | closeEvt
  deriving DecidableEq

/-- One event of `startHeartbeat`:
`pong` sets `connectionAlive = true` (no pong arrives on a closed transport);
`tick` (only while the interval timer is installed) terminates the transport
and calls `onDisconnect()` when `connectionAlive === false`, then clears
`connectionAlive` and pings — nothing in this branch cancels the timer;
`closeEvt` calls `onDisconnect()` and then `clearInterval`. -/
def SocketState.step (st : SocketState) (e : SocketEvent) : SocketState :=
  match e with
  | .pong =>
    if st.transportClosed then st else { st with connectionAlive := true }
  | .tick =>
    if !st.timerActive then st
    else if !st.connectionAlive then
      { st with transportClosed := true,
                disconnectCalls := st.disconnectCalls + 1,
                connectionAlive := false }
    else { st with connectionAlive := false }
  | .closeEvt =>
    if st.closeFired then st
    else { st with closeFired := true, transportClosed := true,
                   disconnectCalls := st.disconnectCalls + 1,
                   timerActive := false }

def SocketState.run (st : SocketState) (es : List SocketEvent) : SocketState :=
  es.foldl SocketState.step st

/-! ## Inbound message handling (src/src/game-socket.ts lines 31-53) -/

/-- Values `JSON.parse` can produce. -/
inductive Json where
  | null
  | bool (b : Bool)
  | num (n : Int)
  | str (s : String)
  | arr (elems : List Json)
  | obj (fields : List (String × Json))

/-- `typeof x === "object"`: true for `null`, arrays and objects. -/
def Json.typeofObject : Json → Bool
  | .null => true
  | .arr _ => true
  | .obj _ => true
  | _ => false

/-- The `name` property access `deserialized.name` for values that pass the
`typeof` check and are not `null` (arrays have no `name` property). -/
def Json.getName : Json → Option Json
  | .obj fields => jsLookup fields "name"
  | _ => none

/-- JS falsiness of a property value (`undefined`, `null`, `false`, `0`, `""`). -/
def jsFalsy : Option Json → Bool
  | none => true
  | some .null => true
  | some (.bool false) => true
  | some (.num 0) => true
  | some (.str "") => true
  | _ => false

/-- Display form used when interpolating `command.name` into the
unknown-command log message. -/
def displayName : Option Json → String
  | some (.str s) => s
  | _ => "?"

/-- Everything `GameSocket.handleMessage` can be observed to do:
`sentEvents` are events sent to THIS connection's peer through `this.send`
during the call (the source body contains no such send); `loggedErrors` are
the messages passed to `player.logger.error`, which fan out to the player's
debug observers only; `dispatched` is the command that reached
`player.handleCommand` (through `handleCommandInternalWrapper`), if any. -/
structure MsgOutcome where
  sentEvents : List String
  loggedErrors : List String
  dispatched : Option Json
  connectionClosed : Bool
  uncaught : Bool

def mkOutcome (logged : List String) (disp : Option Json) : MsgOutcome :=
  { sentEvents := [], loggedErrors := logged, dispatched := disp,
    connectionClosed := false, uncaught := false }

/-- `GameSocket.handleMessage` (src/src/game-socket.ts lines 31-53) composed
with `Player.handleCommandInternalWrapper` (src/src/player.ts lines 110-117).
`parsed` is the result of `JSON.parse(message.data.toString())` (`none` when
parsing throws); `handleCommand` is the abstract subclass dispatch, returning
whether it handled the command.  A `null` value passes the
`typeof deserialized !== "object"` test, and the subsequent `.name` access
throws inside the `try`, so the catch logs the deserialize failure. -/
def GameSocket.handleMessage (parsed : Option Json) (handleCommand : Json → Bool) : MsgOutcome :=
  match parsed with
  | none => mkOutcome ["Unable to deserialize socket message."] none
  | some j =>
    if !j.typeofObject then
      mkOutcome ["Socket message must represent a JSON object."] none
    else
      match j with
      | .null => mkOutcome ["Unable to deserialize socket message."] none
      | _ =>
        if jsFalsy j.getName then
          mkOutcome ["Commands must have a `name` property to be valid."] none
        else if handleCommand j then mkOutcome [] (some j)
        else
          mkOutcome
            ["Command \"" ++ displayName j.getName ++ "\" is unknown and cannot be handled."]
            (some j)

/-- A message that passes every guard in front of the dispatch point:
parseable, `typeof === "object"`, not `null`, with a truthy `name`. -/
def wellFormed (parsed : Option Json) : Bool :=
  match parsed with
  | none => false
  | some .null => false
  | some j => j.typeofObject && !(jsFalsy j.getName)

/-! ## Secret generator (src/src/secret.ts lines 6-13) -/

/-- The alphabet literal of `randomSecret` (src/src/secret.ts line 7). -/
def chars : String :=
  "ABCDEFGHIJKLMNOPQRSTUVWXYZabcdefghijklmnopqrstuvwxyz0123456789"

/-- JS `String.prototype.charAt`: the character at the index as a
one-character string, or `""` when the index is out of range. -/
def charAt (s : String) (i : Int) : String :=
  if h : 0 ≤ i ∧ i.toNat < s.data.length then
    String.singleton (s.data.get ⟨i.toNat, h.2⟩)
  else ""

/-- One iteration of the loop in `randomSecret`:
`str += chars.charAt(Math.floor(Math.random() * chars.length))`, where
`rand i` models the value of the i-th `Math.random()` call, a real number in
`[0, 1)` represented as a rational. -/
def secretStep (rand : Nat → ℚ) (str : String) (i : Nat) : String :=
  str ++ charAt chars ⌊rand i * (chars.length : ℚ)⌋

/-- `randomSecret` (src/src/secret.ts lines 6-13): builds the string by
appending one sampled character per loop iteration.  It reads nothing but its
arguments and the `Math.random()` stream and writes no external state. -/
def randomSecret (rand : Nat → ℚ) (length : Nat) : String :=
  (List.range length).foldl (secretStep rand) ""

/-- `randomSecret()` with the declared default `length = 64`. -/
def randomSecretDefault (rand : Nat → ℚ) : String :=
  randomSecret rand 64

/-! ## Concrete states used to settle the claims -/

/-- A player currently controlled by one game socket (hence `active()`). -/
def fxActivePlayer : Player :=
  { id := "pa", username := "ann", secret := "ps", gameSockets := ["sck1"], inactiveSince := 0 }

/-- A player with no sockets whose last disconnect was at time 1 —
far outside a 10-minute window once `now` is large enough. -/
def fxStalePlayer : Player :=
  { id := "ps1", username := "stan", secret := "ps", gameSockets := [], inactiveSince := 1 }

/-- A freshly added player (no sockets yet, `inactiveSince = 0`). -/
def fxFreshPlayer : Player := Player.mk0 "p1" "alice" "as"

/-- A player owning exactly the game socket `"s1"`. -/
def fxOneSocketPlayer : Player :=
  { id := "p2", username := "bob", secret := "bs", gameSockets := ["s1"], inactiveSince := 0 }

/-- An always-active game (its player holds a live socket) with id `"a"`. -/
def fxActiveGameA : Game :=
  { MAX_PLAYER_COUNT := 6, MAX_INACTIVE_TIME_MINUTES := 10, id := "a", isProtected := false,
    secret := "sa", players := [("pa", fxActivePlayer)], joiningAllowed := true }

/-- An always-active game with id `"b"`. -/
def fxActiveGameB : Game :=
  { fxActiveGameA with id := "b", secret := "sb" }

/-- The game the `createGameFn` factory returns in the C1 scenario. -/
def fxMkGameC (b : Bool) : Game :=
  { fxActiveGameA with id := "c", secret := "cs", isProtected := b }

/-- C1 scenario: `MAX_GAMES_COUNT = 2` and two (private) games already exist. -/
def fxServerC1 : GameServer :=
  { MAX_GAMES_COUNT := 2, publicGames := [],
    privateGames := [("a", fxActiveGameA), ("b", fxActiveGameB)] }

/-- An inactive public game (only player stale since time 1). -/
def fxStaleGamePub : Game :=
  { MAX_PLAYER_COUNT := 6, MAX_INACTIVE_TIME_MINUTES := 10, id := "gpub", isProtected := false,
    secret := "sp", players := [("ps1", fxStalePlayer)], joiningAllowed := true }

/-- An inactive private game, identical in all liveness-relevant fields. -/
def fxStaleGamePriv : Game :=
  { fxStaleGamePub with id := "gpriv", secret := "sq" }

/-- C3 scenario: one inactive public game and one inactive private game. -/
def fxServerC3 : GameServer :=
  { MAX_GAMES_COUNT := 500, publicGames := [("gpub", fxStaleGamePub)],
    privateGames := [("gpriv", fxStaleGamePriv)] }

/-- A game with no players, id `"g"`. -/
def fxEmptyGame : Game :=
  { MAX_PLAYER_COUNT := 6, MAX_INACTIVE_TIME_MINUTES := 10, id := "g", isProtected := false,
    secret := "gs", players := [], joiningAllowed := true }

/-- C5 scenario: the game `"g"` exists (publicly listed), but holds no players. -/
def fxServerC5 : GameServer :=
  { MAX_GAMES_COUNT := 500, publicGames := [("g", fxEmptyGame)], privateGames := [] }

/-- The URL components `deserializeURL` produces for
`/api/games/g/players/p77/connect?player_secret=x`. -/
def fxPartsUnknownPlayer : URLParts :=
  { gameId := some "g", route := some "players", playerId := some "p77",
    playerRoute := some "connect", playerSecret := some "x" }

/-- The URL components for a path whose route matches no branch. -/
def fxPartsBadRoute : URLParts :=
  { gameId := some "g", route := some "watch", playerId := none,
    playerRoute := none, playerSecret := none }

/-- The C7 factory: an unprotected (or protected, per the flag) game with id
`"g7"` whose `randomSecret()` oracle produced `"s7"`. -/
def fxMkGame7 (b : Bool) : Game :=
  { MAX_PLAYER_COUNT := 6, MAX_INACTIVE_TIME_MINUTES := 10, id := "g7", isProtected := b,
    secret := "s7", players := [], joiningAllowed := true }

/-- C7 scenario: an empty server far from capacity. -/
def fxServerC7 : GameServer :=
  { MAX_GAMES_COUNT := 500, publicGames := [], privateGames := [] }

/-- A game at capacity: `MAX_PLAYER_COUNT = 1` with one player registered. -/
def fxFullGame : Game :=
  { MAX_PLAYER_COUNT := 1, MAX_INACTIVE_TIME_MINUTES := 10, id := "gf", isProtected := false,
    secret := "fs", players := [("p1", fxFreshPlayer)], joiningAllowed := true }

/-! ## Theorems -/

/-- Claim C1: `maxGamesCountReached` is claimed to return true exactly when
`|publicGames| + |privateGames| = MAX_GAMES_COUNT`, making `createGame` fail.
The source adds `|publicGames|` to itself instead, so on a server whose two
games are both private and whose maximum is 2, the check reports capacity NOT
reached and `createGame` succeeds, leaving 3 games on a server configured for
at most 2. -/
theorem c1_maxGamesCount_ignores_private_games :
    fxServerC1.publicGames.length + fxServerC1.privateGames.length =
      fxServerC1.MAX_GAMES_COUNT ∧
    fxServerC1.maxGamesCountReached = false ∧
    (fxServerC1.createGame fxMkGameC true false 0).2 =
      Except.ok { gameId := "c", joinSecret := some "cs" } ∧
    (fxServerC1.createGame fxMkGameC true false 0).1.publicGames.length +
      (fxServerC1.createGame fxMkGameC true false 0).1.privateGames.length = 3 := by
  refine ⟨by decide, by decide, rfl, by decide⟩

/-- Claim C3: the inactivity sweep is claimed to visit every game in both
maps and leave no inactive game behind.  `deleteInactive` only iterates
`Object.entries(this.publicGames)`: at time 700000 (window 10 min, so bound
100000) both fixture games are inactive, the public one is removed and
reported, while the private one survives the sweep untouched and still
reports inactive. -/
theorem c3_private_inactive_game_survives_sweep :
    Game.active fxStaleGamePub 700000 = false ∧
    Game.active fxStaleGamePriv 700000 = false ∧
    (fxServerC3.deleteInactive 700000).1.publicGames = [] ∧
    (fxServerC3.deleteInactive 700000).2 = ["gpub"] ∧
    (fxServerC3.deleteInactive 700000).1.privateGames = [("gpriv", fxStaleGamePriv)] := by
  refine ⟨by decide, by decide, by decide, by decide, by decide⟩

/-- Claim C4: the owner notification (`onDisconnect`, i.e. the player's
`removeGameSocket`) is claimed to run exactly once per connection lifetime.
On the pong-timeout path it runs twice: after two ticks without a pong the
timeout branch terminates the transport and calls `onDisconnect()`, and the
`close` event that `terminate()` provokes calls `onDisconnect()` again.
A plain peer-initiated close does notify exactly once. -/
theorem c4_pong_timeout_double_disconnect :
    (SocketState.initial.run
      [SocketEvent.tick, SocketEvent.tick, SocketEvent.closeEvt]).disconnectCalls = 2 ∧
    (SocketState.initial.run [SocketEvent.closeEvt]).disconnectCalls = 1 ∧
    (SocketState.initial.run
      [SocketEvent.tick, SocketEvent.pong, SocketEvent.tick, SocketEvent.pong]).disconnectCalls
      = 0 := by
  refine ⟨by decide, by decide, by decide⟩

/-- Claim C5: every failed upgrade resolution is claimed to destroy the
transport and raise no uncaught exception.  With game `"g"` known and player
`"p77"` unknown, the handler dereferences the `undefined` that
`game.getPlayer` returned and an uncaught TypeError escapes; and a route
matching no branch (`"watch"`) leaves the upgraded websocket half-open
rather than destroying it.  A wrong secret, by contrast, is destroyed
gracefully. -/
theorem c5_unknown_player_crashes_upgrade :
    fxServerC5.handleUpgrade (some "/api/games/g/players/p77/connect?player_secret=x")
        fxPartsUnknownPlayer =
      UpgradeOutcome.crashed
        "TypeError: cannot read properties of undefined (reading verifySecret)" ∧
    fxServerC5.handleUpgrade (some "/api/games/g/watch") fxPartsBadRoute =
      UpgradeOutcome.leftOpen := by
  refine ⟨by decide, by decide⟩

/-- Claim C2, counterexample: the claimed invariant — `inactiveSince` nonzero
iff the player owns zero game connections, with `addGameSocket` clearing it
to 0 — fails on the code.  After add `"s1"`, remove `"s1"` at time 5, add
`"s1"` again, the player owns one connection while `inactiveSince = 5`;
`addGameSocket` (src/src/player.ts lines 62-65) never writes `inactiveSince`. -/
theorem c2_reconnected_player_keeps_nonzero_inactiveSince :
    (fxFreshPlayer.run
      [PlayerOp.add "s1", PlayerOp.remove "s1" 5, PlayerOp.add "s1"]).gameSockets.length = 1 ∧
    (fxFreshPlayer.run
      [PlayerOp.add "s1", PlayerOp.remove "s1" 5, PlayerOp.add "s1"]).inactiveSince = 5 := by
  refine ⟨by decide, by decide⟩

/-- Claim C7, counterexample: a successful `createGame` with
`_protected = false` still returns a join secret (`joinSecret = some "s7"`),
because `Game` draws its secret unconditionally and `createGame` returns
`joinSecret: game.secret` on every path — contradicting "a join secret iff
the game was created protected". -/
theorem c7_unprotected_game_still_returns_join_secret :
    (fxServerC7.createGame fxMkGame7 true false 0).2 =
      Except.ok { gameId := "g7", joinSecret := some "s7" } ∧
    (fxMkGame7 false).isProtected = false := by
  exact ⟨rfl, rfl⟩

/-- Claim C8, counterexample: a malformed inbound message is claimed to be
answered with a `cg_error`-style event sent back to the sending connection.
`GameSocket.handleMessage` sends nothing to its peer on any path: a parse
failure and an unknown command are both reported through the player's debug
logger only. -/
theorem c8_malformed_message_gets_no_event_back :
    (GameSocket.handleMessage none (fun _ => false)).sentEvents = [] ∧
    (GameSocket.handleMessage none (fun _ => false)).loggedErrors =
      ["Unable to deserialize socket message."] ∧
    (GameSocket.handleMessage (some (Json.str "ping")) (fun _ => false)).sentEvents = [] := by
  exact ⟨rfl, rfl, rfl⟩

/-- Claim C6: when a game is full — `full()` true, equivalently player count
at least `MAX_PLAYER_COUNT` — `addPlayer` throws `"The game is full."` before
calling the player factory, and the game state (in particular the player
count) is unchanged. -/
theorem c6_addPlayer_at_capacity_fails_unchanged
    (createPlayer : String → Player) (g : Game) (username : String)
    (h : g.full = true) :
    (Game.addPlayer createPlayer g username).1 = g ∧
    (Game.addPlayer createPlayer g username).2 = Except.error "The game is full." ∧
    (Game.addPlayer createPlayer g username).1.getPlayerCount = g.getPlayerCount ∧
    g.MAX_PLAYER_COUNT ≤ g.getPlayerCount := by
  have hge : g.MAX_PLAYER_COUNT ≤ g.getPlayerCount := by
    have hnlt : ¬ g.getPlayerCount < g.MAX_PLAYER_COUNT := by
      simpa [Game.full] using h
    omega
  refine ⟨?_, ?_, ?_, hge⟩ <;> simp [Game.addPlayer, h]

/-- Witness for C6 at the fixture game that is at capacity
(`MAX_PLAYER_COUNT = 1`, one registered player): adding `"carol"` fails and
leaves the count at 1. -/
theorem c6_witness :
    (Game.addPlayer (fun u => Player.mk0 "p9" u "s9") fxFullGame "carol").2 =
      Except.error "The game is full." ∧
    (Game.addPlayer (fun u => Player.mk0 "p9" u "s9") fxFullGame "carol").1.getPlayerCount =
      fxFullGame.getPlayerCount :=
  ⟨(c6_addPlayer_at_capacity_fails_unchanged (fun u => Player.mk0 "p9" u "s9") fxFullGame
      "carol" (by decide)).2.1,
   (c6_addPlayer_at_capacity_fails_unchanged (fun u => Player.mk0 "p9" u "s9") fxFullGame
      "carol" (by decide)).2.2.1⟩

/-- `removeGameSocket` stamps `inactiveSince` with the call time whenever the
deletion leaves the socket map empty. -/
theorem removeGameSocket_inactive_eq (p : Player) (sid : String) (t : Int)
    (h : jsEraseKey p.gameSockets sid = []) :
    (p.removeGameSocket sid t).inactiveSince = t := by
  simp [Player.removeGameSocket, h]

/-- The socket map after `removeGameSocket` is the JS-delete of the old one. -/
theorem removeGameSocket_sockets (p : Player) (sid : String) (t : Int) :
    (p.removeGameSocket sid t).gameSockets = jsEraseKey p.gameSockets sid := rfl

/-- Claim C10: every `removeGameSocket` call that leaves the player with zero
game connections — including calls whose socket id is not registered, such as
the duplicate notification produced by the heartbeat timeout path —
overwrites `inactiveSince` with the call's `Date.now()`; a later duplicate
overwrites it again, and a larger `inactiveSince` keeps the player inside the
inactivity window at least as long (delaying reclamation of its game). -/
theorem c10_duplicate_disconnect_pushes_inactiveSince
    (p : Player) (sid : String) (t : Int)
    (h : jsEraseKey p.gameSockets sid = []) :
    (p.removeGameSocket sid t).inactiveSince = t ∧
    (p.removeGameSocket sid t).gameSockets = [] ∧
    (∀ sid2 t2, ((p.removeGameSocket sid t).removeGameSocket sid2 t2).inactiveSince = t2) ∧
    (∀ now window t0 : Int, t0 ≤ t →
      playerConsideredActive (p.removeGameSocket sid t0) now window = true →
      playerConsideredActive (p.removeGameSocket sid t) now window = true) := by
  have hsock : (p.removeGameSocket sid t).gameSockets = [] := by
    rw [removeGameSocket_sockets, h]
  refine ⟨removeGameSocket_inactive_eq p sid t h, hsock, ?_, ?_⟩
  · intro sid2 t2
    apply removeGameSocket_inactive_eq
    rw [removeGameSocket_sockets, h]
    rfl
  · intro now window t0 hle hact
    have hsock0 : (p.removeGameSocket sid t0).gameSockets = [] := by
      rw [removeGameSocket_sockets, h]
    have hia0 : (p.removeGameSocket sid t0).inactiveSince = t0 :=
      removeGameSocket_inactive_eq p sid t0 h
    have hia : (p.removeGameSocket sid t).inactiveSince = t :=
      removeGameSocket_inactive_eq p sid t h
    simp [playerConsideredActive, Player.active, hsock0, hia0] at hact
    simp [playerConsideredActive, Player.active, hsock, hia]
    omega

/-- Witness for C10 at a player owning exactly socket `"s1"`: the removal at
time 9 stamps `inactiveSince = 9`, and a duplicate removal of the same id at
time 12 pushes it to 12. -/
theorem c10_witness :
    (fxOneSocketPlayer.removeGameSocket "s1" 9).inactiveSince = 9 ∧
    ((fxOneSocketPlayer.removeGameSocket "s1" 9).removeGameSocket "s1" 12).inactiveSince = 12 :=
  ⟨(c10_duplicate_disconnect_pushes_inactiveSince fxOneSocketPlayer "s1" 9 (by decide)).1,
   (c10_duplicate_disconnect_pushes_inactiveSince fxOneSocketPlayer "s1" 9
      (by decide)).2.2.1 "s1" 12⟩

/-- Claim C7 as amended: every successful `createGame` returns the id of the
game built by the factory and ALWAYS a join secret — the game's
unconditionally generated secret — whether or not the game is protected. -/
theorem c7_createGame_always_returns_join_secret
    (s : GameServer) (createGameFn : Bool → Game) (_public _protected : Bool)
    (now : Int) (r : CreateGameResult)
    (h : (s.createGame createGameFn _public _protected now).2 = Except.ok r) :
    r.gameId = (createGameFn _protected).id ∧
    r.joinSecret = some (createGameFn _protected).secret := by
  unfold GameServer.createGame at h
  by_cases hmax : ((s.deleteInactive now).1).maxGamesCountReached
  · simp [hmax] at h
  · by_cases hpub : _public = true
    · simp [hmax, hpub] at h
      exact ⟨by rw [← h], by rw [← h]⟩
    · simp [hmax, hpub] at h
      exact ⟨by rw [← h], by rw [← h]⟩

/-- Witness for C7's amended theorem at the empty fixture server: creating an
unprotected public game yields id `"g7"` with join secret `"s7"`. -/
theorem c7_witness :
    ({ gameId := "g7", joinSecret := some "s7" } : CreateGameResult).gameId =
      (fxMkGame7 false).id ∧
    ({ gameId := "g7", joinSecret := some "s7" } : CreateGameResult).joinSecret =
      some (fxMkGame7 false).secret :=
  c7_createGame_always_returns_join_secret fxServerC7 fxMkGame7 true false 0
    { gameId := "g7", joinSecret := some "s7" } rfl

theorem player_run_cons (p : Player) (op : PlayerOp) (ops : List PlayerOp) :
    Player.run p (op :: ops) = Player.run (Player.step p op) ops := rfl

/-- `m[k] = v` never leaves a JS object empty. -/
theorem jsInsertKey_ne_nil (l : List String) (k : String) : jsInsertKey l k ≠ [] := by
  unfold jsInsertKey
  split
  · intro hnil
    subst hnil
    simp_all
  · simp

/-- A history consisting only of `addGameSocket` calls leaves the player with
at least one socket. -/
theorem run_adds_sockets_ne_nil (ops : List PlayerOp) (p : Player)
    (hadds : ∀ op ∈ ops, PlayerOp.isAdd op = true) (hne : ops ≠ []) :
    (Player.run p ops).gameSockets ≠ [] := by
  induction ops generalizing p with
  | nil => exact absurd rfl hne
  | cons op rest ih =>
    cases op with
    | remove sid t =>
      have := hadds _ (List.mem_cons_self _ _)
      simp [PlayerOp.isAdd] at this
    | add sid =>
      cases rest with
      | nil =>
        show (Player.addGameSocket p sid).gameSockets ≠ []
        exact jsInsertKey_ne_nil p.gameSockets sid
      | cons op2 rest2 =>
        rw [player_run_cons]
        exact ih (Player.step p (.add sid)) (fun o ho => hadds o (List.mem_cons_of_mem _ ho))
          (by simp)

/-- Core of the amended C2 invariant: after any history of socket calls whose
removal timestamps are positive, a player left with zero game connections by
at least one `removeGameSocket` has a positive (nonzero) `inactiveSince`. -/
theorem run_empty_after_remove_pos (ops : List PlayerOp) (p : Player)
    (hpos : ∀ sid t, PlayerOp.remove sid t ∈ ops → 0 < t)
    (hempty : (Player.run p ops).gameSockets = [])
    (hrem : ∃ sid t, PlayerOp.remove sid t ∈ ops) :
    0 < (Player.run p ops).inactiveSince := by
  induction ops generalizing p with
  | nil =>
    obtain ⟨s, t, hmem⟩ := hrem
    simp at hmem
  | cons op rest ih =>
    rw [player_run_cons] at hempty ⊢
    by_cases hc : ∃ sid t, PlayerOp.remove sid t ∈ rest
    · exact ih (Player.step p op) (fun s t hm => hpos s t (List.mem_cons_of_mem _ hm)) hempty hc
    · obtain ⟨s, t, hmem⟩ := hrem
      rcases List.mem_cons.mp hmem with heq | hmemrest
      · have hadds : ∀ o ∈ rest, PlayerOp.isAdd o = true := by
          intro o ho
          cases o with
          | add _ => rfl
          | remove s2 t2 => exact absurd ⟨s2, t2, ho⟩ hc
        cases rest with
        | nil =>
          rw [← heq] at hempty ⊢
          have ht : 0 < t := hpos s t hmem
          have hkey : jsEraseKey p.gameSockets s = [] := hempty
          show 0 < (p.removeGameSocket s t).inactiveSince
          rw [removeGameSocket_inactive_eq p s t hkey]
          exact ht
        | cons op2 rest2 =>
          exact absurd hempty
            (run_adds_sockets_ne_nil (op2 :: rest2) (Player.step p op) hadds (by simp))
      · exact absurd ⟨s, t, hmemrest⟩ hc

/-- Claim C2 as amended: `addGameSocket` registers the connection but leaves
`inactiveSince` untouched (it is never cleared back to 0), so the claimed
biconditional fails; what the code maintains is the forward direction —
whenever a history containing at least one `removeGameSocket` (with positive
clock readings) leaves the player with zero game connections, `inactiveSince`
is nonzero, stamped by the removal that emptied the socket map. -/
theorem c2_inactiveSince_amended_invariant (p : Player) (ops : List PlayerOp)
    (hpos : ∀ sid t, PlayerOp.remove sid t ∈ ops → 0 < t)
    (hempty : (Player.run p ops).gameSockets = [])
    (hrem : ∃ sid t, PlayerOp.remove sid t ∈ ops) :
    0 < (Player.run p ops).inactiveSince ∧
    ∀ (q : Player) (sid : String), (q.addGameSocket sid).inactiveSince = q.inactiveSince :=
  ⟨run_empty_after_remove_pos ops p hpos hempty hrem, fun _ _ => rfl⟩

/-- Witness for C2's amended theorem: the fresh player gains socket `"s1"`
and loses it at time 5, ending with no sockets and `inactiveSince = 5 > 0`. -/
theorem c2_witness :
    0 < (fxFreshPlayer.run [PlayerOp.add "s1", PlayerOp.remove "s1" 5]).inactiveSince ∧
    ∀ (q : Player) (sid : String), (q.addGameSocket sid).inactiveSince = q.inactiveSince :=
  c2_inactiveSince_amended_invariant fxFreshPlayer [PlayerOp.add "s1", PlayerOp.remove "s1" 5]
    (by
      intro sid t hmem
      simp [List.mem_cons] at hmem
      omega)
    (by decide)
    ⟨"s1", 5, by simp⟩

/-- Claim C8 as amended: on every inbound message, `GameSocket.handleMessage`
sends nothing back to the connection (diagnostics go to the player's debug
logger only), never closes the connection, and lets no exception escape;
every malformed message — unparseable, `null`, not of object type, or with a
falsy `name` — is rejected with a logged error diagnostic and never reaches
the `handleCommand` dispatch point; a well-formed command always reaches
dispatch, and one the subclass does not handle is logged as unknown. -/
theorem c8_malformed_rejected_before_dispatch
    (parsed : Option Json) (handleCommand : Json → Bool) :
    (GameSocket.handleMessage parsed handleCommand).sentEvents = [] ∧
    (GameSocket.handleMessage parsed handleCommand).connectionClosed = false ∧
    (GameSocket.handleMessage parsed handleCommand).uncaught = false ∧
    (wellFormed parsed = false →
      (GameSocket.handleMessage parsed handleCommand).dispatched = none ∧
      (GameSocket.handleMessage parsed handleCommand).loggedErrors ≠ []) ∧
    (∀ j, parsed = some j → wellFormed parsed = true →
      (GameSocket.handleMessage parsed handleCommand).dispatched = some j ∧
      (handleCommand j = false →
        (GameSocket.handleMessage parsed handleCommand).loggedErrors ≠ [])) := by
  cases parsed with
  | none => simp [GameSocket.handleMessage, mkOutcome, wellFormed]
  | some j =>
    cases j with
    | null => simp [GameSocket.handleMessage, mkOutcome, wellFormed, Json.typeofObject]
    | bool b => simp [GameSocket.handleMessage, mkOutcome, wellFormed, Json.typeofObject]
    | num n => simp [GameSocket.handleMessage, mkOutcome, wellFormed, Json.typeofObject]
    | str s => simp [GameSocket.handleMessage, mkOutcome, wellFormed, Json.typeofObject]
    | arr elems =>
      simp [GameSocket.handleMessage, mkOutcome, wellFormed, Json.typeofObject, Json.getName,
        jsFalsy]
    | obj fields =>
      by_cases hf : jsFalsy (Json.getName (Json.obj fields)) = true
      · simp [GameSocket.handleMessage, mkOutcome, wellFormed, Json.typeofObject, hf]
      · by_cases hcmd : handleCommand (Json.obj fields) = true
        · simp [GameSocket.handleMessage, mkOutcome, wellFormed, Json.typeofObject, hf, hcmd]
        · simp [GameSocket.handleMessage, mkOutcome, wellFormed, Json.typeofObject, hf, hcmd]

/-- Witness for C8's amended theorem: a well-formed command whose name the
subclass does not recognise reaches dispatch and is logged as unknown. -/
theorem c8_witness :
    (GameSocket.handleMessage (some (Json.obj [("name", Json.str "ping")]))
        (fun _ => false)).dispatched = some (Json.obj [("name", Json.str "ping")]) ∧
    (GameSocket.handleMessage (some (Json.obj [("name", Json.str "ping")]))
        (fun _ => false)).loggedErrors ≠ [] :=
  ⟨((c8_malformed_rejected_before_dispatch (some (Json.obj [("name", Json.str "ping")]))
      (fun _ => false)).2.2.2.2 (Json.obj [("name", Json.str "ping")]) rfl rfl).1,
   ((c8_malformed_rejected_before_dispatch (some (Json.obj [("name", Json.str "ping")]))
      (fun _ => false)).2.2.2.2 (Json.obj [("name", Json.str "ping")]) rfl rfl).2 rfl⟩

theorem chars_data_length : chars.data.length = 62 := by decide

theorem chars_length_eq : chars.length = 62 := chars_data_length

theorem str_data_append (s t : String) : (s ++ t).data = s.data ++ t.data := by
  cases s
  cases t
  rfl

theorem str_length_append (s t : String) : (s ++ t).length = s.length + t.length := by
  show (s ++ t).data.length = s.data.length + t.data.length
  rw [str_data_append, List.length_append]

/-- `charAt` at an in-range index yields one character of the string. -/
theorem charAt_in_range (s : String) (i : Int) (h0 : 0 ≤ i) (hlt : i.toNat < s.data.length) :
    (charAt s i).length = 1 ∧ ∀ c ∈ (charAt s i).data, c ∈ s.data := by
  unfold charAt
  rw [dif_pos ⟨h0, hlt⟩]
  refine ⟨rfl, ?_⟩
  intro c hc
  have hc' : c = s.data.get ⟨i.toNat, hlt⟩ := by
    simpa [String.singleton] using hc
  rw [hc']
  exact List.get_mem s.data i.toNat hlt

/-- `Math.floor(r * chars.length)` is a valid index into `chars` whenever
`0 ≤ r < 1`. -/
theorem floor_sample_bounds (r : ℚ) (h0 : 0 ≤ r) (h1 : r < 1) :
    0 ≤ ⌊r * (chars.length : ℚ)⌋ ∧ (⌊r * (chars.length : ℚ)⌋).toNat < chars.data.length := by
  have h62 : (chars.length : ℚ) = 62 := by
    rw [chars_length_eq]
    norm_num
  have hnn : (0 : ℚ) ≤ r * (chars.length : ℚ) := by
    rw [h62]
    positivity
  have hlt : r * (chars.length : ℚ) < 62 := by
    rw [h62]
    nlinarith
  have hf0 : 0 ≤ ⌊r * (chars.length : ℚ)⌋ := Int.floor_nonneg.mpr hnn
  have hflt : ⌊r * (chars.length : ℚ)⌋ < 62 := by
    rw [Int.floor_lt]
    exact_mod_cast hlt
  rw [chars_data_length]
  omega

/-- Invariant of the `randomSecret` loop: each iteration appends exactly one
character drawn from the alphabet. -/
theorem randomSecret_foldl (rand : Nat → ℚ) (hr : ∀ i, 0 ≤ rand i ∧ rand i < 1)
    (l : List Nat) (acc : String) :
    (l.foldl (secretStep rand) acc).length = acc.length + l.length ∧
    ∀ c ∈ (l.foldl (secretStep rand) acc).data, c ∈ acc.data ∨ c ∈ chars.data := by
  induction l generalizing acc with
  | nil =>
    refine ⟨by simp, ?_⟩
    intro c hc
    exact Or.inl hc
  | cons i rest ih =>
    rw [List.foldl_cons]
    obtain ⟨hb0, hb1⟩ := floor_sample_bounds (rand i) (hr i).1 (hr i).2
    obtain ⟨hc1, hcmem⟩ := charAt_in_range chars _ hb0 hb1
    obtain ⟨ihl, ihm⟩ := ih (secretStep rand acc i)
    have hstep_len : (secretStep rand acc i).length = acc.length + 1 := by
      unfold secretStep
      rw [str_length_append, hc1]
    refine ⟨?_, ?_⟩
    · rw [ihl, hstep_len]
      simp
      omega
    · intro c hc
      rcases ihm c hc with hin | hin
      · unfold secretStep at hin
        rw [str_data_append] at hin
        rcases List.mem_append.mp hin with h1 | h1
        · exact Or.inl h1
        · exact Or.inr (hcmem c h1)
      · exact Or.inr hin

/-- Claim C9: for every length, `randomSecret` — given any `Math.random()`
stream of values in `[0, 1)` — returns a string of exactly that many
characters, each from the 62-character alphanumeric alphabet, and the
declared default length is 64.  (The embedding is a pure function of its
inputs: the source reads only its argument and the PRNG stream.) -/
theorem c9_randomSecret_length_and_alphabet (rand : Nat → ℚ) (n : Nat)
    (hr : ∀ i, 0 ≤ rand i ∧ rand i < 1) :
    (randomSecret rand n).length = n ∧
    (∀ c ∈ (randomSecret rand n).data, c ∈ chars.data) ∧
    randomSecretDefault rand = randomSecret rand 64 := by
  obtain ⟨hl, hm⟩ := randomSecret_foldl rand hr (List.range n) ""
  refine ⟨?_, ?_, rfl⟩
  · simpa [randomSecret] using hl
  · intro c hc
    rcases hm c (by simpa [randomSecret] using hc) with h1 | h1
    · simp [String.data] at h1
    · exact h1

/-- Witness for C9 with the constant stream 1/2 and length 3. -/
theorem c9_witness :
    (randomSecret (fun _ => (1 : ℚ)/2) 3).length = 3 ∧
    (∀ c ∈ (randomSecret (fun _ => (1 : ℚ)/2) 3).data, c ∈ chars.data) ∧
    randomSecretDefault (fun _ => (1 : ℚ)/2) = randomSecret (fun _ => (1 : ℚ)/2) 64 :=
  c9_randomSecret_length_and_alphabet (fun _ => (1 : ℚ)/2) 3 (fun _ => by norm_num)

end CG
